import Mathlib

/-!
Shallow embedding of the cloth-simulation program in `src/main.rs`
(a Rust/wgpu application: cloth mesh generation, GPU compute dispatch,
and per-frame uniform data), together with theorems checking the
natural-language specification against it.

Modelling conventions:
* Rust `u16`/`u32` grid indices are modelled as `Nat` (all values involved
  are far below any overflow boundary: indices < 2^16, counts < 2^13).
* Rust `f32` scalar constants and coordinates are modelled as `ℚ`.  Every
  constant in the source is a decimal literal (or a quotient of such), so
  the rational faithfully records which constant the source uses; the
  claims settled here are about which expressions the code computes, not
  about rounding of f32 arithmetic.
* The `Spring` struct stores its endpoint indices as `f32` in the source
  (`vertex1: f32`), produced by casting the loop counter; all such values
  are integers below 2^24, hence exactly representable — modelled as `Nat`.
* `x / 0` in `ℚ` is `0` while `0.0f32 / 0.0f32` is NaN; this only arises
  for the texture coordinates at grid width 1, and no theorem below
  inspects texture-coordinate values at width 1.
-/

set_option maxRecDepth 100000

namespace ClothSim

/-! ### Parameters of the simulation (src/main.rs lines 52–73) -/

def GRAVITY : ℚ := 981 / 10000

def CLOTH_WIDTH : ℕ := 30

def NB_CLOTH_VERTICES : ℕ := CLOTH_WIDTH * CLOTH_WIDTH

/-- In the source this constant is an `f32`, but its value
`6 * 30^2 - 10 * 30 + 2 = 5102` is an exact integer. -/
def NB_CLOTH_SPRINGS : ℕ := 6 * CLOTH_WIDTH ^ 2 - 10 * CLOTH_WIDTH + 2

def CLOTH_VERTEX_MASS : ℚ := 1 / 2

def CLOTH_FALL_HEIGHT : ℚ := (CLOTH_WIDTH : ℚ) / 3

def STRUCTURAL_STIFFNESS : ℚ := 200

def SHEAR_STIFFNESS : ℚ := 140

def BEND_STIFFNESS : ℚ := 70

def SPHERE_RADIUS : ℚ := (CLOTH_WIDTH : ℚ) / 7

def SPHERE_POSITION_X : ℚ := 0

def SPHERE_POSITION_Y : ℚ := 0

def SPHERE_POSITION_Z : ℚ := 0

/-- The literal `1.41421356` used in the source as the shear rest length
(the comment there reads: sqrt(2) = 1.41421356). -/
def SHEAR_REST_LENGTH : ℚ := 141421356 / 100000000

/-! ### Data model (src/main.rs lines 17–50) -/

/-- Mirrors `wgpu_bootstrap::default::Vertex` as used by the program:
position, normal, tangent (3 floats each) and texture coordinates
(2 floats). -/
structure Vertex where
  position : ℚ × ℚ × ℚ
  normal : ℚ × ℚ × ℚ
  tangent : ℚ × ℚ × ℚ
  tex_coords : ℚ × ℚ
deriving DecidableEq

structure VertexVelocity where
  velocity : ℚ × ℚ × ℚ
deriving DecidableEq

/-- Mirrors `struct Spring` (src/main.rs lines 23–30); see the note above
on modelling the f32-stored endpoint indices as `Nat`. -/
structure Spring where
  vertex1 : ℕ
  vertex2 : ℕ
  rest_length : ℚ
  stiffness : ℚ
deriving DecidableEq

/-- Mirrors `struct ComputeData` (src/main.rs lines 32–50). -/
structure ComputeData where
  delta_time : ℚ
  nb_cloth_vertices : ℚ
  nb_cloth_springs : ℚ
  cloth_vertex_mass : ℚ
  gravity : ℚ
  structural_stiffness : ℚ
  shear_stiffness : ℚ
  bend_stiffness : ℚ
  sphere_radius : ℚ
  sphere_position_x : ℚ
  sphere_position_y : ℚ
  sphere_position_z : ℚ
deriving DecidableEq

/-! ### create_cloth_mesh (src/main.rs lines 75–151) -/

/-- Body of the vertex loop (lines 84–88): the vertex pushed for grid cell
`(z, x)`.  The x and z offsets use the integer division `width / 2`
(Rust `(width / 2) as f32`), and the texture coordinates divide by
`width - 1` (natural subtraction, as in the `u16` source). -/
def gridVertex (width : ℕ) (altitude : ℚ) (z x : ℕ) : Vertex :=
  { position := ((x : ℚ) - ((width / 2 : ℕ) : ℚ), altitude,
                 (z : ℚ) - ((width / 2 : ℕ) : ℚ))
    normal := (0, 1, 0)
    tangent := (1, 0, 1)
    tex_coords := ((x : ℚ) / (((width - 1 : ℕ)) : ℚ),
                   (z : ℚ) / (((width - 1 : ℕ)) : ℚ)) }

/-- VERTICES section (lines 77–90): `height = width`; row-major double loop
`for z in 0..height { for x in 0..width }`. -/
def clothVertices (width : ℕ) (altitude : ℚ) : List Vertex :=
  (List.range width).flatMap fun z =>
    (List.range width).map fun x => gridVertex width altitude z x

/-- The twelve indices pushed for one grid cell (lines 97–102): two
`extend_from_slice` calls, one per winding order. -/
def cellIndices (width z x : ℕ) : List ℕ :=
  let v0 := z * width + x
  let v1 := z * width + x + 1
  let v2 := (z + 1) * width + x
  let v3 := (z + 1) * width + x + 1
  [v0, v1, v2, v1, v3, v2] ++ [v0, v2, v1, v1, v2, v3]

/-- INDICES section (lines 92–104): `for z in 0..height-1 { for x in 0..width-1 }`
with `height = width`. -/
def clothIndices (width : ℕ) : List ℕ :=
  (List.range (width - 1)).flatMap fun z =>
    (List.range (width - 1)).flatMap fun x =>
      cellIndices width z x

/-- Body of the spring loop (lines 114–148) for loop index `i`: the list of
springs pushed during that iteration, in source order (structural
horizontal, structural vertical, shear NE-SW, shear NW-SE, bend vertical,
bend horizontal).  All bounds use the global constants `NB_CLOTH_VERTICES`
and `CLOTH_WIDTH`, exactly as the source does. -/
def springsForVertex (i : ℕ) : List Spring :=
  (if i + 1 < NB_CLOTH_VERTICES ∧ (i + 1) % CLOTH_WIDTH ≠ 0 then
      [{ vertex1 := i, vertex2 := i + 1, rest_length := 1,
         stiffness := STRUCTURAL_STIFFNESS }] else []) ++
    (if i + CLOTH_WIDTH < NB_CLOTH_VERTICES then
      [{ vertex1 := i, vertex2 := i + CLOTH_WIDTH, rest_length := 1,
         stiffness := STRUCTURAL_STIFFNESS }] else []) ++
    (if i % CLOTH_WIDTH ≠ 0 ∧ i + CLOTH_WIDTH < NB_CLOTH_VERTICES then
      [{ vertex1 := i, vertex2 := i + CLOTH_WIDTH - 1,
         rest_length := SHEAR_REST_LENGTH, stiffness := SHEAR_STIFFNESS }] else []) ++
    (if (i + 1) % CLOTH_WIDTH ≠ 0 ∧ i + CLOTH_WIDTH < NB_CLOTH_VERTICES then
      [{ vertex1 := i, vertex2 := i + CLOTH_WIDTH + 1,
         rest_length := SHEAR_REST_LENGTH, stiffness := SHEAR_STIFFNESS }] else []) ++
    (if i + 2 * CLOTH_WIDTH < NB_CLOTH_VERTICES then
      [{ vertex1 := i, vertex2 := i + 2 * CLOTH_WIDTH, rest_length := 2,
         stiffness := BEND_STIFFNESS }] else []) ++
    (if (i + 1) % CLOTH_WIDTH ≠ 0 ∧ (i + 2) % CLOTH_WIDTH ≠ 0 then
      [{ vertex1 := i, vertex2 := i + 2, rest_length := 2,
         stiffness := BEND_STIFFNESS }] else [])

/-- SPRINGS section (lines 112–148).  The loop runs over the global
constant `NB_CLOTH_VERTICES`; the `width` argument of `create_cloth_mesh`
is not mentioned anywhere in this section of the source. -/
def clothSprings : List Spring :=
  (List.range NB_CLOTH_VERTICES).flatMap springsForVertex

/-- Mirrors `fn create_cloth_mesh(width: u16, altitude: f32)`
(src/main.rs lines 75–151), returning
`(vertices, indices, velocities, springs)`.  The VELOCITIES section
(lines 106–110) pushes one zero velocity per vertex. -/
def create_cloth_mesh (width : ℕ) (altitude : ℚ) :
    List Vertex × List ℕ × List VertexVelocity × List Spring :=
  let vertices := clothVertices width altitude
  let indices := clothIndices width
  let velocities := vertices.map fun _ => ({ velocity := (0, 0, 0) } : VertexVelocity)
  let springs := clothSprings
  (vertices, indices, velocities, springs)

/-- Projection helpers for the four components of the returned tuple. -/
def meshVertices (width : ℕ) (altitude : ℚ) : List Vertex :=
  (create_cloth_mesh width altitude).1

def meshIndices (width : ℕ) (altitude : ℚ) : List ℕ :=
  (create_cloth_mesh width altitude).2.1

def meshVelocities (width : ℕ) (altitude : ℚ) : List VertexVelocity :=
  (create_cloth_mesh width altitude).2.2.1

def meshSprings (width : ℕ) (altitude : ℚ) : List Spring :=
  (create_cloth_mesh width altitude).2.2.2

/-! ### Spec-side definitions (for the refinement claims) -/

/-- Follows the words of the spec (§4.1 table): the six construction rules
for the springs of a grid of width `W`, parameterized by the width (with
`N = W*W`), in table order.  The table's rest length "√2" denotes the
shear rest-length constant the program stores (`1.41421356`). -/
def specSpringsForVertex (W i : ℕ) : List Spring :=
  (if i + 1 < W * W ∧ (i + 1) % W ≠ 0 then
    [{ vertex1 := i, vertex2 := i + 1, rest_length := 1,
       stiffness := STRUCTURAL_STIFFNESS }] else []) ++
  (if i + W < W * W then
    [{ vertex1 := i, vertex2 := i + W, rest_length := 1,
       stiffness := STRUCTURAL_STIFFNESS }] else []) ++
  (if i % W ≠ 0 ∧ i + W < W * W then
    [{ vertex1 := i, vertex2 := i + W - 1,
       rest_length := SHEAR_REST_LENGTH, stiffness := SHEAR_STIFFNESS }] else []) ++
  (if (i + 1) % W ≠ 0 ∧ i + W < W * W then
    [{ vertex1 := i, vertex2 := i + W + 1,
       rest_length := SHEAR_REST_LENGTH, stiffness := SHEAR_STIFFNESS }] else []) ++
  (if i + 2 * W < W * W then
    [{ vertex1 := i, vertex2 := i + 2 * W, rest_length := 2,
       stiffness := BEND_STIFFNESS }] else []) ++
  (if (i + 1) % W ≠ 0 ∧ (i + 2) % W ≠ 0 then
    [{ vertex1 := i, vertex2 := i + 2, rest_length := 2,
       stiffness := BEND_STIFFNESS }] else [])

/-- Follows the words of the spec (§4.1): the spring list built by
iterating vertex index `i` from `0` to `W*W - 1` and emitting the springs
of the six rules whose conditions hold. -/
def specSprings (W : ℕ) : List Spring :=
  (List.range (W * W)).flatMap (specSpringsForVertex W)

/-! ### ComputeData records (src/main.rs lines 221–237 and 375–391) -/

/-- Mirrors the `ComputeData` record built in `MyApp::new`
(src/main.rs lines 221–237). -/
def initComputeData : ComputeData :=
  { delta_time := 16 / 1000
    nb_cloth_vertices := (NB_CLOTH_VERTICES : ℚ)
    nb_cloth_springs := (NB_CLOTH_SPRINGS : ℚ)
    cloth_vertex_mass := CLOTH_VERTEX_MASS
    gravity := GRAVITY
    structural_stiffness := STRUCTURAL_STIFFNESS
    shear_stiffness := SHEAR_STIFFNESS
    bend_stiffness := BEND_STIFFNESS
    sphere_radius := SPHERE_RADIUS * (105 / 100)
    sphere_position_x := SPHERE_POSITION_X
    sphere_position_y := SPHERE_POSITION_Y
    sphere_position_z := SPHERE_POSITION_Z }

/-- Mirrors the `ComputeData` record rebuilt on every call of
`MyApp::update` (src/main.rs lines 375–391), with the frame's
`delta_time` argument. -/
def updateComputeData (delta_time : ℚ) : ComputeData :=
  { delta_time := delta_time
    nb_cloth_vertices := (NB_CLOTH_VERTICES : ℚ)
    nb_cloth_springs := (NB_CLOTH_SPRINGS : ℚ)
    cloth_vertex_mass := CLOTH_VERTEX_MASS
    gravity := GRAVITY
    structural_stiffness := STRUCTURAL_STIFFNESS
    shear_stiffness := SHEAR_STIFFNESS
    bend_stiffness := BEND_STIFFNESS
    sphere_radius := SPHERE_RADIUS * (115 / 100)
    sphere_position_x := SPHERE_POSITION_X
    sphere_position_y := SPHERE_POSITION_Y
    sphere_position_z := SPHERE_POSITION_Z }

/-! ### Compute pass of MyApp::update (src/main.rs lines 395–413) -/

/-- The two compute pipelines of the program: `compute_springs.wgsl`
(spring-force accumulation) and `compute.wgsl` (vertex integration). -/
inductive Kernel where
  | springForce
  | vertexIntegration
deriving DecidableEq

/-- Workgroup count for a dispatch, modelling
`((n as f64) / 64.0).ceil() as u32` (src/main.rs lines 406 and 410).
For the magnitudes involved the f64 quotient and its ceiling are exact,
so this is ceiling division by 64 on naturals. -/
def dispatch_workgroup_count (n : ℕ) : ℕ := (n + 63) / 64

/-- Trace of the single compute pass recorded by one call of
`MyApp::update` (src/main.rs lines 398–411): the dispatches issued, in
program order, as (pipeline, workgroup count) pairs; the pass is then
submitted once (line 413). -/
def updatePassDispatches : List (Kernel × ℕ) :=
  [(Kernel.springForce, dispatch_workgroup_count NB_CLOTH_SPRINGS),
   (Kernel.vertexIntegration, dispatch_workgroup_count NB_CLOTH_VERTICES)]

/-! ### Vertex-integration kernel (spec-modelled) -/

structure Vec3 where
  x : ℚ
  y : ℚ
  z : ℚ
deriving DecidableEq

/-- Modelled from the spec: the WGSL compute-shader sources
(`compute.wgsl`, `compute_springs.wgsl`) referenced by `include_str!` in
src/main.rs are not present in the repository sources, so the
vertex-integration kernel is modelled from §4.3 of the spec, steps 1–2:
acceleration = accumulated spring force / mass + gravity vector
(downward, of magnitude `gravity`); then the semi-implicit Euler step
`velocity += acceleration * dt; position += velocity * dt`, the position
update reading the already-updated velocity.  Step 3 (sphere-collision
projection, which involves a Euclidean normalization) is not modelled
here; the claim settled against this model concerns a vertex away from
the sphere. -/
def integrate_vertex (spring_force : Vec3) (mass gravity dt : ℚ)
    (position velocity : Vec3) : Vec3 × Vec3 :=
  let acceleration : Vec3 :=
    ⟨spring_force.x / mass, spring_force.y / mass - gravity,
     spring_force.z / mass⟩
  let velocity2 : Vec3 :=
    ⟨velocity.x + acceleration.x * dt, velocity.y + acceleration.y * dt,
     velocity.z + acceleration.z * dt⟩
  let position2 : Vec3 :=
    ⟨position.x + velocity2.x * dt, position.y + velocity2.y * dt,
     position.z + velocity2.z * dt⟩
  (position2, velocity2)

/-! ### Shared structural lemmas -/

theorem mem_ite_singleton {α : Type} {c : Prop} [Decidable c] {a s : α}
    (hs : s ∈ if c then [a] else ([] : List α)) : c ∧ s = a := by
  split at hs
  · simp at hs
    exact ⟨by assumption, hs⟩
  · simp at hs

theorem clothSprings_eq_flatMap :
    clothSprings = (List.range NB_CLOTH_VERTICES).flatMap springsForVertex := rfl

theorem clothSprings_length : clothSprings.length = NB_CLOTH_SPRINGS := by
  rw [clothSprings_eq_flatMap, List.length_flatMap]
  decide

theorem clothVertices_length (width : ℕ) (altitude : ℚ) :
    (clothVertices width altitude).length = width * width := by
  rw [clothVertices, List.length_flatMap]
  have : (List.length ∘ fun z => (List.range width).map fun x =>
      gridVertex width altitude z x) = fun _ => width := by
    funext z
    simp
  rw [this]
  rw [List.map_const']
  simp [Nat.mul_comm]

theorem cellIndices_length (width z x : ℕ) : (cellIndices width z x).length = 12 := rfl

theorem clothIndices_length (width : ℕ) :
    (clothIndices width).length = 12 * ((width - 1) * (width - 1)) := by
  rw [clothIndices, List.length_flatMap]
  have h1 : ∀ z : ℕ,
      ((List.range (width - 1)).flatMap fun x => cellIndices width z x).length
        = (width - 1) * 12 := by
    intro z
    rw [List.length_flatMap]
    have h2 : (List.length ∘ fun x => cellIndices width z x) = fun _ => 12 := by
      funext x; rfl
    rw [h2, List.map_const']
    simp [Nat.mul_comm]
  have h3 : (List.length ∘ fun z =>
      (List.range (width - 1)).flatMap fun x => cellIndices width z x)
        = fun _ => (width - 1) * 12 := by
    funext z; exact h1 z
  rw [h3, List.map_const']
  simp [Nat.mul_comm, Nat.mul_assoc, Nat.mul_left_comm]

theorem mem_clothVertices {width : ℕ} {altitude : ℚ} {v : Vertex} :
    v ∈ clothVertices width altitude ↔
      ∃ z, z < width ∧ ∃ x, x < width ∧ gridVertex width altitude z x = v := by
  rw [clothVertices]
  simp only [List.mem_flatMap, List.mem_map, List.mem_range]

theorem clothSprings_endpoints :
    ∀ s ∈ clothSprings, s.vertex1 ≠ s.vertex2 ∧
      s.vertex1 < NB_CLOTH_VERTICES ∧ s.vertex2 < NB_CLOTH_VERTICES := by
  intro s hs
  rw [clothSprings_eq_flatMap, List.mem_flatMap] at hs
  obtain ⟨i, hi, hmem⟩ := hs
  rw [List.mem_range] at hi
  simp only [springsForVertex, List.mem_append] at hmem
  rcases hmem with ((((h | h) | h) | h) | h) | h <;>
    obtain ⟨hc, rfl⟩ := mem_ite_singleton h <;>
    refine ⟨?_, ?_, ?_⟩ <;>
    simp only [NB_CLOTH_VERTICES, CLOTH_WIDTH] at hc hi ⊢ <;>
    omega

theorem spring_869_mem :
    ({ vertex1 := 869, vertex2 := 899, rest_length := 1,
       stiffness := STRUCTURAL_STIFFNESS } : Spring) ∈ clothSprings := by
  rw [clothSprings_eq_flatMap, List.mem_flatMap]
  refine ⟨869, ?_, ?_⟩
  · rw [List.mem_range]
    norm_num [NB_CLOTH_VERTICES, CLOTH_WIDTH]
  · decide

/-! ### Claim C1: total spring count -/

/-- C1 (counterexample): the claim fails as stated.  Called with width 2,
`create_cloth_mesh` emits 5102 springs, not `6*2^2 - 10*2 + 2 = 6`,
because the spring loop runs over the compiled-in constants. -/
theorem C1_count_counterexample :
    (meshSprings 2 0).length ≠ 6 * 2 ^ 2 - 10 * 2 + 2 := by
  have h : (meshSprings 2 0).length = NB_CLOTH_SPRINGS := clothSprings_length
  rw [h]
  decide

/-- C1 (amended): for every width argument and altitude, the spring list
emitted by `create_cloth_mesh` has exactly `6*W^2 - 10*W + 2` springs for
`W` the compiled-in `CLOTH_WIDTH = 30` (that is, always 5102), the closed
form holding at the hard-coded width rather than at the argument. -/
theorem C1_count_amended (w : ℕ) (h : ℚ) :
    (meshSprings w h).length = 6 * CLOTH_WIDTH ^ 2 - 10 * CLOTH_WIDTH + 2 :=
  clothSprings_length

/-! ### Claim C2: the six construction rules -/

/-- C2 (counterexample): the claim fails as stated.  At width 2 the spring
list is not the list generated by iterating `i` over `0..W*W-1` with the
six rules at `W = 2` (the latter has 6 springs, the emitted list 5102). -/
theorem C2_rules_counterexample : meshSprings 2 0 ≠ specSprings 2 := by
  intro hEq
  have h1 : (meshSprings 2 0).length = NB_CLOTH_SPRINGS := clothSprings_length
  have h2 : (specSprings 2).length = 6 := by decide
  rw [hEq, h2] at h1
  exact absurd h1 (by decide)

/-- C2 (amended): for every width argument and altitude, the emitted
spring list is exactly the list generated by iterating vertex index `i`
from `0` to `W*W - 1` with the six construction rules of the spec table,
but with `W` fixed to the compiled-in `CLOTH_WIDTH = 30` instead of the
width argument. -/
theorem C2_rules_amended (w : ℕ) (h : ℚ) :
    meshSprings w h = specSprings CLOTH_WIDTH := by
  have h1 : springsForVertex = specSpringsForVertex CLOTH_WIDTH := by
    funext i
    rw [springsForVertex, specSpringsForVertex, NB_CLOTH_VERTICES]
  show clothSprings = specSprings CLOTH_WIDTH
  rw [clothSprings, specSprings, NB_CLOTH_VERTICES, h1]

/-! ### Claim C3: springs reference distinct, in-range vertices -/

/-- C3 (counterexample): the claim fails as stated.  At width 2 not every
emitted spring references endpoints inside `0 .. 2*2 - 1`: the spring
(869, 899) is in the list. -/
theorem C3_endpoints_counterexample :
    ¬ ∀ s ∈ meshSprings 2 0, s.vertex1 < 2 * 2 ∧ s.vertex2 < 2 * 2 := by
  intro hAll
  have hmem : (⟨869, 899, 1, STRUCTURAL_STIFFNESS⟩ : Spring) ∈ meshSprings 2 0 :=
    spring_869_mem
  exact absurd (hAll _ hmem).2 (by decide)

/-- C3 (amended): for every width argument and altitude, every emitted
spring references two distinct vertex indices, both inside
`0 .. NB_CLOTH_VERTICES - 1 = 0 .. 899`; they lie inside the returned
vertex array (of length `w*w`) whenever `30 ≤ w` (in particular at the
compiled-in width 30), but not in general. -/
theorem C3_endpoints_amended (w : ℕ) (h : ℚ) :
    (∀ s ∈ meshSprings w h, s.vertex1 ≠ s.vertex2 ∧
       s.vertex1 < NB_CLOTH_VERTICES ∧ s.vertex2 < NB_CLOTH_VERTICES) ∧
    (30 ≤ w → ∀ s ∈ meshSprings w h,
       s.vertex1 < w * w ∧ s.vertex2 < w * w) := by
  constructor
  · exact fun s hs => clothSprings_endpoints s hs
  · intro hw s hs
    obtain ⟨_, h1, h2⟩ := clothSprings_endpoints s hs
    have hle : NB_CLOTH_VERTICES ≤ w * w := by
      have h30 : (30 : ℕ) * 30 ≤ w * w := Nat.mul_le_mul hw hw
      simpa [NB_CLOTH_VERTICES, CLOTH_WIDTH] using h30
    exact ⟨lt_of_lt_of_le h1 hle, lt_of_lt_of_le h2 hle⟩

/-- C3 (witness): the amended theorem applied at width 30 and a concrete
spring of the list. -/
theorem C3_endpoints_witness :
    (30 : ℕ) ≤ 30 ∧
    ({ vertex1 := 0, vertex2 := 1, rest_length := 1,
       stiffness := STRUCTURAL_STIFFNESS } : Spring).vertex1 < 30 * 30 ∧
    ({ vertex1 := 0, vertex2 := 1, rest_length := 1,
       stiffness := STRUCTURAL_STIFFNESS } : Spring).vertex2 < 30 * 30 :=
  ⟨by decide,
   (C3_endpoints_amended 30 10).2 (by decide) _ (by decide)⟩

/-! ### Claim C4: triangle index list -/

/-- C4 (counterexample): the claim fails as stated.  At width 2 the index
list has 12 entries, not `6*(2-1)*(2-1) = 6`: the source pushes both
winding orders, 12 indices per cell. -/
theorem C4_indices_counterexample :
    (meshIndices 2 0).length ≠ 6 * ((2 - 1) * (2 - 1)) := by decide

/-- C4 (amended): for every width `w ≥ 2` and altitude, the triangle index
list covers every grid cell with two triangles in each of the two winding
orders — 12 indices per cell — and contains exactly `12*(w-1)*(w-1)`
indices in total. -/
theorem C4_indices_amended (w : ℕ) (h : ℚ) (_hw : 2 ≤ w) :
    meshIndices w h =
      (List.range (w - 1)).flatMap (fun z =>
        (List.range (w - 1)).flatMap fun x => cellIndices w z x) ∧
    (∀ z x : ℕ, (cellIndices w z x).length = 12) ∧
    (meshIndices w h).length = 12 * ((w - 1) * (w - 1)) :=
  ⟨rfl, fun _ _ => rfl, clothIndices_length w⟩

/-- C4 (witness): the amended theorem applied at width 2. -/
theorem C4_indices_witness :
    2 ≤ 2 ∧ (meshIndices 2 0).length = 12 * ((2 - 1) * (2 - 1)) :=
  ⟨by decide, (C4_indices_amended 2 0 (by decide)).2.2⟩

/-! ### Claim C5: vertex layout -/

/-- C5 (counterexample): the claim fails as stated.  At width 2 the x
coordinates of the generated vertices are {-1, 0}, which is not symmetric
about 0 (no vertex has x coordinate 1), because the source offsets by the
integer division `width / 2`. -/
theorem C5_vertices_counterexample :
    ¬ ∀ v ∈ meshVertices 2 0, ∃ u ∈ meshVertices 2 0,
        u.position.1 = -v.position.1 := by
  intro hAll
  have hv : gridVertex 2 0 0 0 ∈ meshVertices 2 0 :=
    mem_clothVertices.mpr ⟨0, by omega, 0, by omega, rfl⟩
  obtain ⟨u, hu, hx⟩ := hAll _ hv
  obtain ⟨z, hz, x, hxlt, rfl⟩ := mem_clothVertices.mp hu
  simp only [gridVertex] at hx
  norm_num at hx
  interval_cases x <;> norm_num at hx

/-- C5 (amended): for every width `w ≥ 2` and fall height `h`,
`create_cloth_mesh` returns `w*w` vertices, each with y coordinate `h`,
with texture coordinates inside `[0,1]` in both axes attaining the
corners `(0,0)` and `(1,1)`; the x/z grid is offset by the integer
division `w / 2`, so it is symmetric about the origin exactly when `w`
is odd (and in particular not at the compiled-in even width 30). -/
theorem C5_vertices_amended (w : ℕ) (h : ℚ) (hw : 2 ≤ w) :
    (meshVertices w h).length = w * w ∧
    (∀ v ∈ meshVertices w h, v.position.2.1 = h ∧
       0 ≤ v.tex_coords.1 ∧ v.tex_coords.1 ≤ 1 ∧
       0 ≤ v.tex_coords.2 ∧ v.tex_coords.2 ≤ 1) ∧
    (∃ v ∈ meshVertices w h, v.tex_coords = (0, 0)) ∧
    (∃ v ∈ meshVertices w h, v.tex_coords = (1, 1)) ∧
    (w % 2 = 1 → ∀ v ∈ meshVertices w h, ∃ u ∈ meshVertices w h,
       u.position.1 = -v.position.1 ∧ u.position.2.2 = -v.position.2.2) := by
  have hw1 : (0 : ℚ) < ((w - 1 : ℕ) : ℚ) := by
    have hpos : 0 < w - 1 := by omega
    exact_mod_cast hpos
  refine ⟨clothVertices_length w h, ?_, ?_, ?_, ?_⟩
  · intro v hv
    obtain ⟨z, hz, x, hx, rfl⟩ := mem_clothVertices.mp hv
    simp only [gridVertex]
    refine ⟨trivial, ?_, ?_, ?_, ?_⟩
    · exact div_nonneg (by positivity) (le_of_lt hw1)
    · rw [div_le_one hw1]
      exact_mod_cast Nat.le_sub_one_of_lt hx
    · exact div_nonneg (by positivity) (le_of_lt hw1)
    · rw [div_le_one hw1]
      exact_mod_cast Nat.le_sub_one_of_lt hz
  · refine ⟨gridVertex w h 0 0, mem_clothVertices.mpr ⟨0, by omega, 0, by omega, rfl⟩, ?_⟩
    simp [gridVertex]
  · refine ⟨gridVertex w h (w - 1) (w - 1),
      mem_clothVertices.mpr ⟨w - 1, by omega, w - 1, by omega, rfl⟩, ?_⟩
    simp [gridVertex, div_self (ne_of_gt hw1)]
  · intro hodd v hv
    obtain ⟨z, hz, x, hx, rfl⟩ := mem_clothVertices.mp hv
    refine ⟨gridVertex w h (w - 1 - z) (w - 1 - x),
      mem_clothVertices.mpr ⟨w - 1 - z, by omega, w - 1 - x, by omega, rfl⟩, ?_, ?_⟩
    · obtain ⟨k, hk⟩ : ∃ k, w = 2 * k + 1 := ⟨w / 2, by omega⟩
      have h2 : w / 2 = k := by omega
      have hx2 : x ≤ 2 * k := by omega
      show ((w - 1 - x : ℕ) : ℚ) - ((w / 2 : ℕ) : ℚ) =
        -(((x : ℕ) : ℚ) - ((w / 2 : ℕ) : ℚ))
      rw [show w - 1 - x = 2 * k - x by omega, h2]
      push_cast [Nat.cast_sub hx2]
      ring
    · obtain ⟨k, hk⟩ : ∃ k, w = 2 * k + 1 := ⟨w / 2, by omega⟩
      have h2 : w / 2 = k := by omega
      have hz2 : z ≤ 2 * k := by omega
      show ((w - 1 - z : ℕ) : ℚ) - ((w / 2 : ℕ) : ℚ) =
        -(((z : ℕ) : ℚ) - ((w / 2 : ℕ) : ℚ))
      rw [show w - 1 - z = 2 * k - z by omega, h2]
      push_cast [Nat.cast_sub hz2]
      ring

/-- C5 (witness): the amended theorem applied at width 3. -/
theorem C5_vertices_witness :
    2 ≤ 3 ∧ (meshVertices 3 0).length = 3 * 3 :=
  ⟨by decide, (C5_vertices_amended 3 0 (by decide)).1⟩

/-! ### Claim C6: the spring list ignores the width argument -/

/-- C6 (confirmed): the vertices, indices and velocities returned by
`create_cloth_mesh` depend on the width argument (their lengths are
`w*w`, `12*(w-1)^2`, `w*w`), while the spring list is the same for every
width and altitude argument — the list for the compiled-in width 30 —
and for `2 ≤ w < 30` it contains a spring whose endpoint index is not
below the number of returned vertices. -/
theorem C6_springs_ignore_width (w w2 : ℕ) (h h2 : ℚ) :
    meshSprings w h = meshSprings w2 h2 ∧
    meshSprings w h = meshSprings CLOTH_WIDTH CLOTH_FALL_HEIGHT ∧
    (meshVertices w h).length = w * w ∧
    (meshVelocities w h).length = w * w ∧
    (meshIndices w h).length = 12 * ((w - 1) * (w - 1)) ∧
    (w < 30 → ∃ s ∈ meshSprings w h,
       (meshVertices w h).length ≤ s.vertex2) := by
  refine ⟨rfl, rfl, clothVertices_length w h, ?_, clothIndices_length w, ?_⟩
  · show ((clothVertices w h).map _).length = w * w
    rw [List.length_map]
    exact clothVertices_length w h
  · intro hw
    refine ⟨(⟨869, 899, 1, STRUCTURAL_STIFFNESS⟩ : Spring), spring_869_mem, ?_⟩
    show (meshVertices w h).length ≤ 899
    calc (meshVertices w h).length = w * w := clothVertices_length w h
      _ ≤ 29 * 29 := Nat.mul_le_mul (by omega) (by omega)
      _ ≤ 899 := by norm_num

/-- C6 (witness): the theorem applied at width 2, exhibiting a spring that
reaches outside the 4-vertex array. -/
theorem C6_springs_ignore_width_witness :
    2 < 30 ∧ ∃ s ∈ meshSprings 2 0, (meshVertices 2 0).length ≤ s.vertex2 :=
  ⟨by decide, (C6_springs_ignore_width 2 5 0 1).2.2.2.2.2 (by decide)⟩

/-! ### Claim C7: no fail-fast width validation -/

/-- C7 (code_bug): the spec requires widths below 2 to be rejected at
construction, but `create_cloth_mesh` performs no validation: at width 1
it returns an ordinary mesh — one vertex, no triangle indices, one zero
velocity, and the full 5102-spring list — instead of failing. -/
theorem C7_no_width_validation :
    (meshVertices 1 0).length = 1 ∧ meshIndices 1 0 = [] ∧
    (meshVelocities 1 0).length = 1 ∧
    (meshSprings 1 0).length = NB_CLOTH_SPRINGS :=
  ⟨by decide, by decide, by decide, clothSprings_length⟩

/-! ### Claim C8: per-frame dispatch structure -/

/-- C8 (confirmed): each call of `MyApp::update` records, in one submitted
compute pass, exactly two dispatches in this order: the spring-force
kernel with `ceil(spring_count / 64) = 80` workgroups, then the
vertex-integration kernel with `ceil(vertex_count / 64) = 15`
workgroups, the counts matching the actual emitted spring list and
vertex list lengths. -/
theorem C8_update_dispatch_order :
    updatePassDispatches =
      [(Kernel.springForce, dispatch_workgroup_count clothSprings.length),
       (Kernel.vertexIntegration,
        dispatch_workgroup_count
          (clothVertices CLOTH_WIDTH CLOTH_FALL_HEIGHT).length)] ∧
    dispatch_workgroup_count NB_CLOTH_SPRINGS = 80 ∧
    dispatch_workgroup_count NB_CLOTH_VERTICES = 15 := by
  refine ⟨?_, by decide, by decide⟩
  rw [updatePassDispatches, clothSprings_length, clothVertices_length]
  rfl

/-! ### Claim C9: sphere-radius inflation asymmetry -/

/-- C9 (confirmed): the `ComputeData` record built at initialization
carries `sphere_radius = SPHERE_RADIUS * 1.05` while the record uploaded
by every per-frame update carries `sphere_radius = SPHERE_RADIUS * 1.15`;
these two values differ, and every other field of the two records except
`delta_time` is equal. -/
theorem C9_sphere_radius_asymmetry (dt : ℚ) :
    initComputeData.sphere_radius = SPHERE_RADIUS * (105 / 100) ∧
    (updateComputeData dt).sphere_radius = SPHERE_RADIUS * (115 / 100) ∧
    initComputeData.sphere_radius ≠ (updateComputeData dt).sphere_radius ∧
    initComputeData.nb_cloth_vertices = (updateComputeData dt).nb_cloth_vertices ∧
    initComputeData.nb_cloth_springs = (updateComputeData dt).nb_cloth_springs ∧
    initComputeData.cloth_vertex_mass = (updateComputeData dt).cloth_vertex_mass ∧
    initComputeData.gravity = (updateComputeData dt).gravity ∧
    initComputeData.structural_stiffness = (updateComputeData dt).structural_stiffness ∧
    initComputeData.shear_stiffness = (updateComputeData dt).shear_stiffness ∧
    initComputeData.bend_stiffness = (updateComputeData dt).bend_stiffness ∧
    initComputeData.sphere_position_x = (updateComputeData dt).sphere_position_x ∧
    initComputeData.sphere_position_y = (updateComputeData dt).sphere_position_y ∧
    initComputeData.sphere_position_z = (updateComputeData dt).sphere_position_z := by
  refine ⟨rfl, rfl, ?_, rfl, rfl, rfl, rfl, rfl, rfl, rfl, rfl, rfl, rfl⟩
  show SPHERE_RADIUS * (105 / 100) ≠ SPHERE_RADIUS * (115 / 100)
  rw [SPHERE_RADIUS, CLOTH_WIDTH]
  norm_num

/-! ### Claim C10: semi-implicit Euler ordering -/

/-- C10 (confirmed, against the spec-modelled kernel): the integration
step updates velocity first and moves the position with the new
velocity; hence a vertex with zero accumulated spring force and zero
initial velocity ends one step of `dt` with velocity `(0, -g*dt, 0)` —
of squared magnitude `(g*dt)^2` — its y position decreased by exactly
`g*dt^2` (the new velocity times `dt`), and x and z unchanged. -/
theorem C10_semi_implicit_euler (m g dt : ℚ) (p : Vec3) :
    (integrate_vertex ⟨0, 0, 0⟩ m g dt p ⟨0, 0, 0⟩).2 = ⟨0, -(g * dt), 0⟩ ∧
    ((integrate_vertex ⟨0, 0, 0⟩ m g dt p ⟨0, 0, 0⟩).2.x) ^ 2 +
      ((integrate_vertex ⟨0, 0, 0⟩ m g dt p ⟨0, 0, 0⟩).2.y) ^ 2 +
      ((integrate_vertex ⟨0, 0, 0⟩ m g dt p ⟨0, 0, 0⟩).2.z) ^ 2 = (g * dt) ^ 2 ∧
    (integrate_vertex ⟨0, 0, 0⟩ m g dt p ⟨0, 0, 0⟩).1 =
      ⟨p.x, p.y - g * dt ^ 2, p.z⟩ ∧
    ((integrate_vertex ⟨0, 0, 0⟩ m g dt p ⟨0, 0, 0⟩).1).y =
      p.y + ((integrate_vertex ⟨0, 0, 0⟩ m g dt p ⟨0, 0, 0⟩).2).y * dt := by
  refine ⟨?_, ?_, ?_, ?_⟩ <;>
    (simp [integrate_vertex, Vec3.mk.injEq]; try ring)

end ClothSim
